import Mathlib

/-!
Verification of the DDP_backend column-insights core and org-management
functions against their specification.

Shallow embedding of:
- `ddpui/datainsights/insights/insight_interface.py` (`ColInsight`,
  `DataTypeColInsights`),
- `ddpui/api/user_org_api.py` (`post_organization_warehouse`,
  `post_organization_v1`),
- `ddpui/core/orgfunctions.py` (`create_organization`, `create_orgPlan`).

Python mutable instances are embedded as immutable records with explicit
state passing: a method that may mutate `self` takes the record and returns
its result paired with the record after the call.  The external database is
an explicit record of rows.  Components of the repository that the claims
depend on but whose modules are not under version here (the concrete metric
plugin variants, `AggQueryBuilder` from `query_builder.py`, the feature
constants from `utils/constants.py`) are modelled from the spec and marked
as such in their doc comments.
-/

/-- Warehouse type tags, from `ddpui/datainsights/warehouse/warehouse_interface.py`
(imported by `insight_interface.py`): the closed enumeration
POSTGRES / BIGQUERY / SNOWFLAKE. -/
inductive WarehouseType
  | POSTGRES
  | BIGQUERY
  | SNOWFLAKE
deriving DecidableEq, Repr

/-- A structured filter predicate: field, operator, value. -/
structure ColFilter where
  field : String
  op : String
  value : String
deriving DecidableEq, Repr

/-- Modelled from the spec: the Aggregate Query Builder
(`ddpui/datainsights/query_builder.py`, whose module is not in the sources at
hand).  Its mutable state is the list of named aggregate expressions, the
target schema/table and the optional filter accumulated so far; a freshly
constructed builder (`AggQueryBuilder()`) is empty. -/
structure AggQueryBuilder where
  aggregates : List (String × String)
  target : Option (String × String)
  whereClause : Option ColFilter
deriving DecidableEq, Repr

/-- The state of a freshly constructed `AggQueryBuilder()`. -/
def AggQueryBuilder.empty : AggQueryBuilder :=
  { aggregates := [], target := none, whereClause := none }

/-- State of a `ColInsight` instance: the fields assigned in
`ColInsight.__init__` (insight_interface.py lines 15-28).  `wtype` is an
optional warehouse tag because the Python parameter defaults to `None`. -/
structure ColInsight where
  column_name : String
  builder : AggQueryBuilder
  db_table : String
  db_schema : String
  filter : Option ColFilter
  wtype : Option WarehouseType
deriving DecidableEq, Repr

/-- `ColInsight.__init__`: stores the five identity arguments and creates a
fresh `AggQueryBuilder` for the instance. -/
def ColInsight.init (column_name db_table db_schema : String)
    (filter : Option ColFilter) (wtype : Option WarehouseType) : ColInsight :=
  { column_name := column_name
    builder := AggQueryBuilder.empty
    db_table := db_table
    db_schema := db_schema
    filter := filter
    wtype := wtype }

/-- The identity fields of a plugin instance: everything set at construction
except the builder. -/
def ColInsight.identity (c : ColInsight) :
    String × String × String × Option ColFilter × Option WarehouseType :=
  (c.column_name, c.db_table, c.db_schema, c.filter, c.wtype)

/-- An immutable, dialect-specific compiled SELECT; carries only its SQL
text. -/
structure CompiledQuery where
  sql : String
deriving DecidableEq, Repr

/-- Modelled from the spec: the dialect registry's identifier-quoting rule
(BigQuery quotes with backticks, Postgres and Snowflake with double
quotes). -/
def quoteIdent : Option WarehouseType → String → String
  | some WarehouseType.BIGQUERY, s => "\x60" ++ s ++ "\x60"
  | _, s => "\"" ++ s ++ "\""

/-- Modelled from the spec: translation of a structured filter to a
dialect-quoted WHERE fragment. -/
def renderFilter (w : Option WarehouseType) (f : ColFilter) : String :=
  quoteIdent w f.field ++ " " ++ f.op ++ " \x27" ++ f.value ++ "\x27"

/-- Render one named aggregate expression with its alias. -/
def renderAgg (a : String × String) : String :=
  a.1 ++ " AS " ++ a.2

/-- Compile the builder state into SQL text for the given dialect. -/
def AggQueryBuilder.compile (b : AggQueryBuilder) (w : Option WarehouseType) :
    CompiledQuery :=
  let cols := String.intercalate ", " (b.aggregates.map renderAgg)
  let from_part :=
    match b.target with
    | some (sch, tbl) => " FROM " ++ quoteIdent w sch ++ "." ++ quoteIdent w tbl
    | none => ""
  let where_part :=
    match b.whereClause with
    | some f => " WHERE " ++ renderFilter w f
    | none => ""
  { sql := "SELECT " ++ cols ++ from_part ++ where_part }

/-- Modelled from the spec: the builder state a concrete metric plugin
assembles during one `generate_sql` call.  It is built from the identity
fields alone — a fresh builder per call, never reading state left by a
previous call. -/
def ColInsight.fresh_build (c : ColInsight) : AggQueryBuilder :=
  { aggregates := [("COUNT(" ++ c.column_name ++ ")", "count_" ++ c.column_name)]
    target := some (c.db_schema, c.db_table)
    whereClause := c.filter }

/-- Modelled from the spec: a concrete metric plugin's `generate_sql`
(the variant modules are not in the sources at hand).  Pure and
deterministic over the identity fields; assembles the query on a fresh
builder and leaves the instance with that builder as its post-call state.
Returns the compiled query together with the instance after the call. -/
def ColInsight.generate_sql (c : ColInsight) : CompiledQuery × ColInsight :=
  let b := c.fresh_build
  (b.compile c.wtype, { c with builder := b })

/-- The error taxonomy of the spec (section 7). -/
inductive ProfErr
  | ConstructionError (msg : String)
  | FilterTranslationError
  | ResultShapeError
  | MergeLengthMismatchError
deriving DecidableEq, Repr

/-- A typed insight result. -/
inductive InsightValue
  | count (n : Nat)
  | str (s : String)
  | unknown
deriving DecidableEq, Repr

/-- One result row: a mapping from alias to warehouse-native value. -/
abbrev ResultRow := List (String × String)

/-- Modelled from the spec: the metric key under which a plugin's parsed
value is inserted into the column profile. -/
def ColInsight.metricKey (c : ColInsight) : String :=
  "count_" ++ c.column_name

/-- Modelled from the spec: a concrete metric plugin's `parse_results`
(the variant modules are not in the sources at hand).  Expects a single
summary row carrying the plugin's alias; fails with ResultShapeError if the
alias is missing or the row count is not the expected shape.  Does not touch
`self`. -/
def ColInsight.parse_results (c : ColInsight) (rows : List ResultRow) :
    Except ProfErr InsightValue × ColInsight :=
  match rows with
  | [r] =>
    match r.lookup c.metricKey with
    | some v => (Except.ok (InsightValue.str v), c)
    | none => (Except.error ProfErr.ResultShapeError, c)
  | _ => (Except.error ProfErr.ResultShapeError, c)

/-- `ColInsight.chart_type` (insight_interface.py lines 38-39): the base
implementation returns `None` and reads/writes no instance state. -/
def ColInsight.chart_type (c : ColInsight) : Option String × ColInsight :=
  (none, c)

/-- State of a `DataTypeColInsights` coordinator instance: the fields
assigned in `DataTypeColInsights.__init__` (insight_interface.py
lines 47-60). -/
structure DataTypeColInsights where
  column_name : String
  db_table : String
  db_schema : String
  insights : List ColInsight
  filter : Option ColFilter
  wtype : WarehouseType
deriving DecidableEq, Repr

/-- `DataTypeColInsights.__init__`: stores the identity arguments, starts
with an empty plugin list, and sets `self.wtype = WarehouseType.POSTGRES`
regardless of the `wtype` argument (the `# default` line in the source). -/
def DataTypeColInsights.init (column_name db_table db_schema : String)
    (filter : Option ColFilter) (wtype : Option WarehouseType) :
    DataTypeColInsights :=
  { column_name := column_name
    db_table := db_table
    db_schema := db_schema
    insights := []
    filter := filter
    wtype := WarehouseType.POSTGRES }

/-- The identity fields of a coordinator instance. -/
def DataTypeColInsights.identity (d : DataTypeColInsights) :
    String × String × String × Option ColFilter × WarehouseType :=
  (d.column_name, d.db_table, d.db_schema, d.filter, d.wtype)

/-- Modelled from the spec: a concrete coordinator's `generate_sqls`
(the variant modules are not in the sources at hand): the ordered list of
each owned plugin's compiled query, in declaration order; each plugin is
left in its post-call state. -/
def DataTypeColInsights.generate_sqls (d : DataTypeColInsights) :
    List CompiledQuery × DataTypeColInsights :=
  let pairs := d.insights.map ColInsight.generate_sql
  (pairs.map Prod.fst, { d with insights := pairs.map Prod.snd })

/-- A column profile: metric key to parsed insight value, in plugin order. -/
abbrev ColumnProfile := List (String × InsightValue)

/-- Positional merge of each plugin's parsed value; a parse failure aborts
the whole column's profile. -/
def mergeEach : List ColInsight → List (List ResultRow) →
    Except ProfErr ColumnProfile
  | [], _ => Except.ok []
  | _, [] => Except.ok []
  | c :: cs, r :: rs =>
    match (c.parse_results r).1 with
    | Except.error e => Except.error e
    | Except.ok v =>
      match mergeEach cs rs with
      | Except.error e => Except.error e
      | Except.ok profile => Except.ok ((c.metricKey, v) :: profile)

/-- Modelled from the spec: a concrete coordinator's `merge_output`
(the variant modules are not in the sources at hand).  Requires
`len(results) == len(generate_sqls())` for the same instance; a mismatch
raises MergeLengthMismatchError rather than merging best-effort; otherwise
delegates positionally to each plugin's `parse_results`. -/
def DataTypeColInsights.merge_output (d : DataTypeColInsights)
    (results : List (List ResultRow)) :
    Except ProfErr ColumnProfile × DataTypeColInsights :=
  if results.length ≠ (d.generate_sqls).1.length then
    (Except.error ProfErr.MergeLengthMismatchError, d)
  else
    (mergeEach d.insights results, d)

/-- Modelled from the spec: `get_col_type` returns the coordinator
variant's declared semantic type string (the variants are not in the
sources at hand, so the tag is a parameter); it reads/writes no instance
state. -/
def DataTypeColInsights.get_col_type (d : DataTypeColInsights)
    (tag : String) : String × DataTypeColInsights :=
  (tag, d)

/-- Modelled from the spec: a concrete metric plugin variant
(NullCount, DistinctCount, Min, Max, …; their modules are not in the
sources at hand).  Each variant declares which WarehouseTypes it
supports. -/
structure MetricVariant where
  name : String
  supported : List WarehouseType
deriving DecidableEq, Repr

/-- Modelled from the spec: a concrete variant's constructor.  Construction
with a WarehouseType outside the variant's declared support set fails
immediately with ConstructionError (fail fast); otherwise it runs
`ColInsight.__init__`. -/
def MetricVariant.init (v : MetricVariant)
    (column_name db_table db_schema : String) (filter : Option ColFilter)
    (wtype : WarehouseType) : Except ProfErr ColInsight :=
  if wtype ∈ v.supported then
    Except.ok (ColInsight.init column_name db_table db_schema filter (some wtype))
  else
    Except.error (ProfErr.ConstructionError
      ("unsupported warehouse type for " ++ v.name))

/-- An `Org` row: the fields relevant to the claims. -/
structure Org where
  name : String
  slug : String
deriving DecidableEq, Repr

/-- The Org table of the database. -/
structure OrgDB where
  orgs : List Org
deriving DecidableEq, Repr

/-- Python `s[:20]`: the first 20 characters of the string. -/
def strSlice20 (s : String) : String :=
  String.mk (s.data.take 20)

/-- Does the table hold an org whose name equals `name` case-insensitively
(the `name__iexact` lookup)? -/
def OrgDB.hasOrgNamed (db : OrgDB) (name : String) : Bool :=
  db.orgs.any (fun o => o.name.toLower == name.toLower)

/-- `create_organization` (orgfunctions.py lines 25-50), parametrised over
the external `slugify` function and over whether
`setup_airbyte_workspace_v1` succeeds (`airbyte_ok = false` means it raised).
Returns the Python `(org, error)` pair together with the database after the
call.  On the airbyte failure path the function logs, deletes the just-saved
row (`org.delete()`) and returns the error pair. -/
def create_organization (slugify : String → String) (airbyte_ok : Bool)
    (payload_name : String) (db : OrgDB) :
    (Option Org × Option String) × OrgDB :=
  if db.hasOrgNamed payload_name then
    ((none, some "client org with this name already exists"), db)
  else
    let org : Org := { name := payload_name, slug := strSlice20 (slugify payload_name) }
    let db1 : OrgDB := { orgs := db.orgs ++ [org] }
    if airbyte_ok then
      ((some org, none), db1)
    else
      ((none, some "could not create airbyte workspace"),
        { orgs := db1.orgs.erase org })

/-- `post_organization_v1` (user_org_api.py lines 405-440), restricted to
its effect on the Org table: the permission check, the duplicate-name
check, `org.save()` with `slug = slugify(org.name)[:20]`, and the
try/except around `setup_airbyte_workspace_v1` that deletes the org and
re-raises as HTTP 400.  The OrgUser attachment that follows touches no Org
row and is outside the claims.  Errors are the raised `HttpError`
(status, message) pairs. -/
def post_organization_v1 (slugify : String → String) (can_create_orgs : Bool)
    (airbyte_ok : Bool) (payload_name : String) (db : OrgDB) :
    Except (Nat × String) Org × OrgDB :=
  if !can_create_orgs then
    (Except.error (403, "Insufficient permissions for this operation"), db)
  else if db.hasOrgNamed payload_name then
    (Except.error (400, "client org with this name already exists"), db)
  else
    let org : Org := { name := payload_name, slug := strSlice20 (slugify payload_name) }
    let db1 : OrgDB := { orgs := db.orgs ++ [org] }
    if airbyte_ok then
      (Except.ok org, db1)
    else
      (Except.error (400, "could not create airbyte workspace"),
        { orgs := db1.orgs.erase org })

/-- The payload of `post_organization_warehouse`: the fields the guard and
the subsequent creation steps read. -/
structure OrgWarehouseSchema where
  wtype : String
  name : String
  destinationDefId : String
deriving DecidableEq, Repr

/-- External state touched by `post_organization_warehouse`: airbyte
destinations created so far and OrgWarehouse records created so far. -/
structure WarehouseState where
  destinations : List String
  warehouses : List String
deriving DecidableEq, Repr

/-- The creation steps of `post_organization_warehouse` after the guard:
`airbyte_service.create_destination` with name `f"{payload.wtype}-warehouse"`
followed (eventually) by creation of the OrgWarehouse record.  Modelled as
appending to the respective tables. -/
def createWarehouseRest (payload : OrgWarehouseSchema) (st : WarehouseState) :
    WarehouseState :=
  { destinations := st.destinations ++ [payload.wtype ++ "-warehouse"]
    warehouses := st.warehouses ++ [payload.wtype] }

/-- `post_organization_warehouse` (user_org_api.py lines 213 onward): the
wtype guard raising HTTP 400 for an unrecognized warehouse type, before any
destination or OrgWarehouse record is created; on the error path the state
is returned untouched. -/
def post_organization_warehouse (payload : OrgWarehouseSchema)
    (st : WarehouseState) : Except (Nat × String) Unit × WarehouseState :=
  if payload.wtype ∉ ["postgres", "bigquery", "snowflake"] then
    (Except.error (400, "unrecognized warehouse type " ++ payload.wtype), st)
  else
    (Except.ok (), createWarehouseRest payload st)

/-- The feature mappings `FREE_TRIAL`, `DALGO_WITH_SUPERSET`, `DALGO` from
`ddpui/utils/constants.py` (module not in the sources at hand), plus the
literal empty mapping assigned as the initial `"features": \x7b\x7d`;
represented as abstract distinct values. -/
inductive PlanFeatures
  | FREE_TRIAL
  | DALGO_WITH_SUPERSET
  | DALGO
  | emptyMapping
deriving DecidableEq, Repr

/-- The fields of `CreateOrgSchema` read by `create_orgPlan`. -/
structure CreateOrgSchema where
  name : String
  base_plan : String
  can_upgrade_plan : Bool
  subscription_duration : String
  superset_included : Bool
  start_date : Option String
  end_date : Option String
deriving DecidableEq, Repr

/-- An `OrgPlans` row as built by `create_orgPlan`. -/
structure OrgPlanRecord where
  org : String
  base_plan : String
  can_upgrade_plan : Bool
  subscription_duration : String
  superset_included : Bool
  start_date : Option String
  end_date : Option String
  features : PlanFeatures
deriving DecidableEq, Repr

/-- `create_orgPlan` (orgfunctions.py lines 53-80), parametrised over
whether an `OrgPlans` row already exists for the org.  Builds the plan
payload with empty features, then overwrites `features` through the
`base_plan` / `superset_included` chain, and creates the row; if a plan
already exists it returns the error pair and creates nothing. -/
def create_orgPlan (payload : CreateOrgSchema) (org : String)
    (existing_plan : Bool) : Option OrgPlanRecord × Option String :=
  if existing_plan then
    (none, some "client org\x27s plan already exists")
  else
    let features :=
      if payload.base_plan = "Free Trial" then PlanFeatures.FREE_TRIAL
      else if payload.base_plan = "Internal" then PlanFeatures.DALGO_WITH_SUPERSET
      else if payload.base_plan = "Dalgo" ∧ payload.superset_included then
        PlanFeatures.DALGO_WITH_SUPERSET
      else if payload.base_plan = "Dalgo" ∧ ¬payload.superset_included then
        PlanFeatures.DALGO
      else PlanFeatures.emptyMapping
    let org_plan : OrgPlanRecord :=
      { org := org
        base_plan := payload.base_plan
        can_upgrade_plan := payload.can_upgrade_plan
        subscription_duration := payload.subscription_duration
        superset_included := payload.superset_included
        start_date := payload.start_date
        end_date := payload.end_date
        features := features }
    (some org_plan, none)

/-! ## Theorems -/

/-- Shared: a member of `(l ++ [a]).erase a` when `a ∉ l` — the erase
restores `l` itself. -/
theorem append_singleton_erase {α : Type} [DecidableEq α] (l : List α) (a : α)
    (h : a ∉ l) : (l ++ [a]).erase a = l := by
  rw [List.erase_append_right _ h, List.erase_cons_head, List.append_nil]

/-- Shared: the truncated slug has at most 20 characters. -/
theorem strSlice20_length_le (s : String) : (strSlice20 s).length ≤ 20 := by
  show (s.data.take 20).length ≤ 20
  rw [List.length_take]
  exact Nat.min_le_left _ _

/-- C1: constructing any metric plugin variant with a WarehouseType outside
its declared support set fails at construction time with a
ConstructionError, and never yields a usable instance (hence no
CompiledQuery can be generated from that call). -/
theorem metric_variant_unsupported_wtype_fails
    (v : MetricVariant) (cn tbl sch : String) (f : Option ColFilter)
    (w : WarehouseType) (h : w ∉ v.supported) :
    v.init cn tbl sch f w =
      Except.error (ProfErr.ConstructionError
        ("unsupported warehouse type for " ++ v.name)) ∧
    ∀ c : ColInsight, v.init cn tbl sch f w ≠ Except.ok c := by
  unfold MetricVariant.init
  rw [if_neg h]
  exact ⟨rfl, fun c hc => Except.noConfusion hc⟩

/-- A NullCount-style variant supporting only Postgres, for the witness. -/
def nullCountVariant : MetricVariant :=
  { name := "NullCount", supported := [WarehouseType.POSTGRES] }

/-- Witness for C1: the Postgres-only variant rejects BigQuery at
construction. -/
theorem metric_variant_unsupported_wtype_fails_witness :
    nullCountVariant.init "amount" "orders" "public" none WarehouseType.BIGQUERY =
      Except.error (ProfErr.ConstructionError
        ("unsupported warehouse type for " ++ nullCountVariant.name)) :=
  (metric_variant_unsupported_wtype_fails nullCountVariant "amount" "orders"
    "public" none WarehouseType.BIGQUERY (by decide)).1

/-- C2: for every argument tuple, including `none` and non-Postgres
warehouse types, the coordinator constructed by
`DataTypeColInsights.__init__` has `wtype = WarehouseType.POSTGRES`: the
field does not track the constructor's `wtype` argument. -/
theorem datatype_coordinator_wtype_hardcoded
    (cn tbl sch : String) (f : Option ColFilter) (w : Option WarehouseType) :
    (DataTypeColInsights.init cn tbl sch f w).wtype = WarehouseType.POSTGRES :=
  rfl

/-- Determinism of a single plugin's query over its identity fields: the
builder state plays no role. -/
theorem generate_sql_fst_identity (c1 c2 : ColInsight)
    (h : c1.identity = c2.identity) :
    (c1.generate_sql).1 = (c2.generate_sql).1 := by
  cases c1
  cases c2
  simp only [ColInsight.identity, Prod.mk.injEq] at h
  obtain ⟨h1, h2, h3, h4, h5⟩ := h
  subst h1; subst h2; subst h3; subst h4; subst h5
  rfl

/-- Lifting of `generate_sql_fst_identity` to lists of plugins. -/
theorem map_generate_sql_fst_identity :
    ∀ l1 l2 : List ColInsight,
      l1.map ColInsight.identity = l2.map ColInsight.identity →
      l1.map (fun c => (ColInsight.generate_sql c).1) =
        l2.map (fun c => (ColInsight.generate_sql c).1) := by
  intro l1
  induction l1 with
  | nil =>
    intro l2 h
    cases l2 with
    | nil => rfl
    | cons b m => exact absurd h (by simp)
  | cons a l ih =>
    intro l2 h
    cases l2 with
    | nil => exact absurd h (by simp)
    | cons b m =>
      simp only [List.map_cons, List.cons.injEq] at h ⊢
      exact ⟨generate_sql_fst_identity a b h.1, ih m h.2⟩

/-- C3: generate_sql / generate_sqls is deterministic and leaks no builder
state between calls: two instances agreeing on the identity fields
(column_name, db_table, db_schema, filter, wtype) — whatever their builder
states — compile textually identical SQL; a repeated call on the post-call
state of the same instance returns the same SQL; and the same holds for a
coordinator's ordered query list. -/
theorem generate_sql_deterministic_no_state_leak :
    (∀ c1 c2 : ColInsight, c1.identity = c2.identity →
      (c1.generate_sql).1 = (c2.generate_sql).1) ∧
    (∀ c : ColInsight,
      (((c.generate_sql).2).generate_sql).1 = (c.generate_sql).1) ∧
    (∀ d1 d2 : DataTypeColInsights,
      d1.insights.map ColInsight.identity = d2.insights.map ColInsight.identity →
      (d1.generate_sqls).1 = (d2.generate_sqls).1) ∧
    (∀ d : DataTypeColInsights,
      (((d.generate_sqls).2).generate_sqls).1 = (d.generate_sqls).1) := by
  refine ⟨generate_sql_fst_identity, ?_, ?_, ?_⟩
  · intro c
    exact generate_sql_fst_identity _ _ rfl
  · intro d1 d2 h
    show (d1.insights.map ColInsight.generate_sql).map Prod.fst =
      (d2.insights.map ColInsight.generate_sql).map Prod.fst
    rw [List.map_map, List.map_map]
    exact map_generate_sql_fst_identity d1.insights d2.insights h
  · intro d
    simp only [DataTypeColInsights.generate_sqls, List.map_map]
    rfl

/-- A Postgres NullCount plugin instance with a fresh builder, for the
witnesses. -/
def cPluginA : ColInsight :=
  ColInsight.init "amount" "orders" "public" none (some WarehouseType.POSTGRES)

/-- The same identity fields as `cPluginA` but a dirty, non-empty builder
state left over from some earlier call. -/
def cPluginB : ColInsight :=
  { cPluginA with builder := cPluginA.fresh_build }

/-- Witness for C3: the two instances differ in builder state yet compile
identical SQL. -/
theorem generate_sql_deterministic_no_state_leak_witness :
    (cPluginA.generate_sql).1 = (cPluginB.generate_sql).1 :=
  generate_sql_deterministic_no_state_leak.1 cPluginA cPluginB rfl

/-- C5: no method of either class mutates the identity fields after
construction: generate_sql, parse_results and chart_type preserve a
plugin's column_name, db_table, db_schema, filter and wtype, and
generate_sqls, merge_output and get_col_type preserve a coordinator's. -/
theorem identity_fields_immutable (c : ColInsight) (d : DataTypeColInsights)
    (rows : List ResultRow) (results : List (List ResultRow)) (tag : String) :
    ((c.generate_sql).2).identity = c.identity ∧
    ((c.parse_results rows).2).identity = c.identity ∧
    ((c.chart_type).2).identity = c.identity ∧
    ((d.generate_sqls).2).identity = d.identity ∧
    ((d.merge_output results).2).identity = d.identity ∧
    ((d.get_col_type tag).2).identity = d.identity := by
  refine ⟨rfl, ?_, rfl, rfl, ?_, rfl⟩
  · rcases rows with _ | ⟨r, rs⟩
    · rfl
    · rcases rs with _ | ⟨r2, rs2⟩
      · rcases hl : r.lookup c.metricKey with _ | v <;>
          simp [ColInsight.parse_results, hl]
      · rfl
  · unfold DataTypeColInsights.merge_output
    split <;> rfl

/-- C6: the base-class `chart_type` (not overridden) returns `None`, the
valid default visualization tag. -/
theorem chart_type_default_none (c : ColInsight) :
    (c.chart_type).1 = none :=
  rfl

/-- C4: merge_output with a results list whose length differs from the
length of generate_sqls() on the same instance raises
MergeLengthMismatchError rather than merging best-effort. -/
theorem merge_output_length_guard (d : DataTypeColInsights)
    (results : List (List ResultRow))
    (h : results.length ≠ (d.generate_sqls).1.length) :
    d.merge_output results =
      (Except.error ProfErr.MergeLengthMismatchError, d) := by
  unfold DataTypeColInsights.merge_output
  rw [if_pos h]

/-- A coordinator owning one plugin, for the witness. -/
def dNumeric : DataTypeColInsights :=
  { DataTypeColInsights.init "amount" "orders" "public" none
      (some WarehouseType.POSTGRES) with insights := [cPluginA] }

/-- Witness for C4: one query generated but zero result sets supplied. -/
theorem merge_output_length_guard_witness :
    dNumeric.merge_output [] =
      (Except.error ProfErr.MergeLengthMismatchError, dNumeric) :=
  merge_output_length_guard dNumeric [] (by decide)

/-- C7: WarehouseType is the closed enumeration POSTGRES / BIGQUERY /
SNOWFLAKE, and registering a warehouse whose wtype string is outside that
set raises HTTP 400 "unrecognized warehouse type …" before any destination
or OrgWarehouse record is created (the state is returned untouched). -/
theorem warehouse_type_closed_and_guarded :
    (∀ w : WarehouseType,
      w ∈ [WarehouseType.POSTGRES, WarehouseType.BIGQUERY,
           WarehouseType.SNOWFLAKE]) ∧
    (∀ (payload : OrgWarehouseSchema) (st : WarehouseState),
      payload.wtype ∉ ["postgres", "bigquery", "snowflake"] →
      post_organization_warehouse payload st =
        (Except.error (400, "unrecognized warehouse type " ++ payload.wtype),
          st)) := by
  constructor
  · intro w
    cases w <;> simp
  · intro payload st h
    unfold post_organization_warehouse
    rw [if_pos h]

/-- A registration payload with an out-of-set warehouse type, for the
witness. -/
def badWarehousePayload : OrgWarehouseSchema :=
  { wtype := "mysql", name := "wh", destinationDefId := "defid" }

/-- The empty external state, for the witness. -/
def warehouseState0 : WarehouseState :=
  { destinations := [], warehouses := [] }

/-- Witness for C7: wtype "mysql" is rejected with 400 and the state is
untouched. -/
theorem warehouse_type_closed_and_guarded_witness :
    post_organization_warehouse badWarehousePayload warehouseState0 =
      (Except.error (400, "unrecognized warehouse type mysql"),
        warehouseState0) :=
  warehouse_type_closed_and_guarded.2 badWarehousePayload warehouseState0
    (by decide)

/-- C8: `create_organization` is atomic with respect to Org creation — when
`setup_airbyte_workspace_v1` raises after the Org row is saved, the
just-created Org is deleted, the function returns
`(None, "could not create airbyte workspace")`, and no Org with that name
persists in the database. -/
theorem create_organization_atomic (slugify : String → String)
    (payload_name : String) (db : OrgDB)
    (hno : db.hasOrgNamed payload_name = false) :
    create_organization slugify false payload_name db =
      ((none, some "could not create airbyte workspace"), db) ∧
    ∀ o ∈ ((create_organization slugify false payload_name db).2).orgs,
      o.name.toLower ≠ payload_name.toLower := by
  have hmem : ∀ o ∈ db.orgs, o.name.toLower ≠ payload_name.toLower := by
    intro o ho he
    have htrue : db.hasOrgNamed payload_name = true := by
      simp only [OrgDB.hasOrgNamed, List.any_eq_true, beq_iff_eq]
      exact ⟨o, ho, he⟩
    rw [hno] at htrue
    exact Bool.noConfusion htrue
  have horg :
      ({ name := payload_name, slug := strSlice20 (slugify payload_name) } : Org)
        ∉ db.orgs := fun hin => hmem _ hin rfl
  have hlist := append_singleton_erase db.orgs
    { name := payload_name, slug := strSlice20 (slugify payload_name) } horg
  have hres : create_organization slugify false payload_name db =
      ((none, some "could not create airbyte workspace"), db) := by
    simp only [create_organization, hno, Bool.false_eq_true, if_false,
      Prod.mk.injEq, true_and]
    rw [hlist]
  refine ⟨hres, ?_⟩
  rw [hres]
  exact hmem

/-- The empty Org table, for witnesses. -/
def emptyOrgDB : OrgDB := { orgs := [] }

/-- Witness for C8: on an empty table, a failed airbyte setup leaves the
table empty and returns the error pair. -/
theorem create_organization_atomic_witness :
    create_organization (fun s => s) false "Acme" emptyOrgDB =
      ((none, some "could not create airbyte workspace"), emptyOrgDB) :=
  (create_organization_atomic (fun s => s) "Acme" emptyOrgDB rfl).1

/-- Shared for C9: any member of the table after appending the newly saved
org either pre-existed or carries the truncated slug. -/
theorem new_org_slug_aux (slugify : String → String) (payload_name : String)
    (db : OrgDB) (o : Org)
    (ho : o ∈ db.orgs ++
      [{ name := payload_name, slug := strSlice20 (slugify payload_name) }]) :
    o ∈ db.orgs ∨
      (o.slug = strSlice20 (slugify o.name) ∧ o.slug.length ≤ 20) := by
  rcases List.mem_append.1 ho with h | h
  · exact Or.inl h
  · right
    have he : o =
        { name := payload_name, slug := strSlice20 (slugify payload_name) } := by
      simpa using h
    subst he
    exact ⟨rfl, strSlice20_length_le _⟩

/-- C9: every Org created by `create_organization` or
`post_organization_v1` has `slug = slugify(name)[:20]`, hence a slug of at
most 20 characters, whatever the length of the organization name. -/
theorem org_slug_truncated (slugify : String → String)
    (can_create airbyte_ok : Bool) (payload_name : String) (db : OrgDB) :
    (∀ o ∈ ((create_organization slugify airbyte_ok payload_name db).2).orgs,
      o ∈ db.orgs ∨
        (o.slug = strSlice20 (slugify o.name) ∧ o.slug.length ≤ 20)) ∧
    (∀ o ∈ ((post_organization_v1 slugify can_create airbyte_ok
        payload_name db).2).orgs,
      o ∈ db.orgs ∨
        (o.slug = strSlice20 (slugify o.name) ∧ o.slug.length ≤ 20)) := by
  constructor
  · intro o ho
    simp only [create_organization] at ho
    split at ho
    · exact Or.inl ho
    · split at ho
      · exact new_org_slug_aux slugify payload_name db o ho
      · exact new_org_slug_aux slugify payload_name db o
          (List.mem_of_mem_erase ho)
  · intro o ho
    simp only [post_organization_v1] at ho
    split at ho
    · exact Or.inl ho
    · split at ho
      · exact Or.inl ho
      · split at ho
        · exact new_org_slug_aux slugify payload_name db o ho
        · exact new_org_slug_aux slugify payload_name db o
            (List.mem_of_mem_erase ho)

/-- An org whose 26-character name forces slug truncation, for the
witness. -/
def orgLong : Org :=
  { name := "abcdefghijklmnopqrstuvwxyz"
    slug := strSlice20 "abcdefghijklmnopqrstuvwxyz" }

/-- Witness for C9: the org created from a 26-character name is in the
resulting table and its slug is the 20-character truncation. -/
theorem org_slug_truncated_witness :
    orgLong ∈ ((create_organization (fun s => s) true
      "abcdefghijklmnopqrstuvwxyz" emptyOrgDB).2).orgs ∧
    (orgLong ∈ emptyOrgDB.orgs ∨
      (orgLong.slug = strSlice20 ((fun s => s) orgLong.name) ∧
        orgLong.slug.length ≤ 20)) := by
  have hmem : orgLong ∈ ((create_organization (fun s => s) true
      "abcdefghijklmnopqrstuvwxyz" emptyOrgDB).2).orgs := by
    simp [create_organization, emptyOrgDB, OrgDB.hasOrgNamed, orgLong]
  exact ⟨hmem, (org_slug_truncated (fun s => s) true true
    "abcdefghijklmnopqrstuvwxyz" emptyOrgDB).1 orgLong hmem⟩

/-- C10: `create_orgPlan` maps the payload to the plan's features
deterministically — "Free Trial" to FREE_TRIAL, "Internal" to
DALGO_WITH_SUPERSET, "Dalgo" with superset_included to
DALGO_WITH_SUPERSET, "Dalgo" without superset_included to DALGO, any other
base_plan to the empty mapping — and returns the "already exists" error
pair, creating nothing, when a plan exists for the org. -/
theorem create_orgPlan_features (payload : CreateOrgSchema) (org : String) :
    create_orgPlan payload org true =
      (none, some "client org\x27s plan already exists") ∧
    (payload.base_plan = "Free Trial" →
      ∀ plan, (create_orgPlan payload org false).1 = some plan →
        plan.features = PlanFeatures.FREE_TRIAL) ∧
    (payload.base_plan = "Internal" →
      ∀ plan, (create_orgPlan payload org false).1 = some plan →
        plan.features = PlanFeatures.DALGO_WITH_SUPERSET) ∧
    (payload.base_plan = "Dalgo" → payload.superset_included = true →
      ∀ plan, (create_orgPlan payload org false).1 = some plan →
        plan.features = PlanFeatures.DALGO_WITH_SUPERSET) ∧
    (payload.base_plan = "Dalgo" → payload.superset_included = false →
      ∀ plan, (create_orgPlan payload org false).1 = some plan →
        plan.features = PlanFeatures.DALGO) ∧
    (payload.base_plan ∉ ["Free Trial", "Internal", "Dalgo"] →
      ∀ plan, (create_orgPlan payload org false).1 = some plan →
        plan.features = PlanFeatures.emptyMapping) ∧
    (∃ plan, create_orgPlan payload org false = (some plan, none)) := by
  refine ⟨rfl, ?_, ?_, ?_, ?_, ?_, ⟨_, rfl⟩⟩
  · intro h plan hp
    simp only [create_orgPlan, h] at hp
    simp at hp
    subst hp
    rfl
  · intro h plan hp
    simp only [create_orgPlan, h] at hp
    simp at hp
    subst hp
    rfl
  · intro h h2 plan hp
    simp only [create_orgPlan, h, h2] at hp
    simp at hp
    subst hp
    rfl
  · intro h h2 plan hp
    simp only [create_orgPlan, h, h2] at hp
    simp at hp
    subst hp
    rfl
  · intro h plan hp
    simp only [List.mem_cons, List.mem_singleton, not_or] at h
    obtain ⟨h1, h2, h3⟩ := h
    simp only [create_orgPlan, h1, h2, h3] at hp
    simp [h1, h2, h3] at hp
    subst hp
    rfl

/-- A "Free Trial" payload, for the witness. -/
def payloadFreeTrial : CreateOrgSchema :=
  { name := "Acme", base_plan := "Free Trial", can_upgrade_plan := true,
    subscription_duration := "monthly", superset_included := false,
    start_date := none, end_date := none }

/-- The plan row `create_orgPlan` builds from `payloadFreeTrial`. -/
def freeTrialPlan : OrgPlanRecord :=
  { org := "acme", base_plan := "Free Trial", can_upgrade_plan := true,
    subscription_duration := "monthly", superset_included := false,
    start_date := none, end_date := none,
    features := PlanFeatures.FREE_TRIAL }

/-- Witness for C10: the existing-plan guard fires, and the Free Trial
payload yields FREE_TRIAL features. -/
theorem create_orgPlan_features_witness :
    create_orgPlan payloadFreeTrial "acme" true =
      (none, some "client org\x27s plan already exists") ∧
    freeTrialPlan.features = PlanFeatures.FREE_TRIAL :=
  ⟨(create_orgPlan_features payloadFreeTrial "acme").1,
   (create_orgPlan_features payloadFreeTrial "acme").2.1 rfl freeTrialPlan rfl⟩
